import Mathlib

/-!
Shallow embedding of the Huddle Up real-time messaging server
(Node.js/Sequelize backend: socket handlers, message/team/channel routes,
and the Sequelize models backing them).

Persistent storage is modelled as lists of rows, one list per table, and
each route / socket handler is translated as a function from the database
(plus request parameters and server-assigned id/timestamp) to a result and
an updated database.  An `Except ApiError Unit` result models the HTTP
status / emitted `error` event of the handler: `.error e` corresponds to
the handler's early-return error response and `.ok ()` to its success
response.
-/

deriving instance DecidableEq for Except

/-- Error taxonomy of the server's responses (HTTP error statuses and
socket `error` events). -/
inductive ApiError
  | accessDenied
  | notFound
  | validation
  | conflict
  | ownerCannotLeave
  | internal
deriving DecidableEq, Repr

/-- Row of the `users` table (presence-relevant fields). -/
structure UserRec where
  id : Nat
  isOnline : Bool
  lastSeen : Option Nat
deriving DecidableEq, Repr

/-- Row of the `teams` table. -/
structure TeamRec where
  id : Nat
  ownerId : Nat
  inviteCode : Nat
deriving DecidableEq, Repr

/-- Row of the `team_members` join table. -/
structure TeamMemberRec where
  userId : Nat
  teamId : Nat
  role : String
deriving DecidableEq, Repr

/-- Row of the `channels` table. -/
structure ChannelRec where
  id : Nat
  teamId : Nat
  createdById : Nat
  isPrivate : Bool
  lastMessageId : Option Nat
deriving DecidableEq, Repr

/-- Row of the `channel_members` join table. -/
structure ChannelMemberRec where
  userId : Nat
  channelId : Nat
deriving DecidableEq, Repr

/-- Row of the `messages` table. -/
structure MessageRec where
  id : Nat
  content : String
  senderId : Nat
  channelId : Nat
  teamId : Nat
  createdAt : Nat
  editedAt : Option Nat
deriving DecidableEq, Repr

/-- Row of the `message_reactions` table. -/
structure ReactionRec where
  userId : Nat
  messageId : Nat
  emoji : String
deriving DecidableEq, Repr

/-- The relational store consumed by every handler. -/
structure Db where
  users : List UserRec
  teams : List TeamRec
  teamMembers : List TeamMemberRec
  channels : List ChannelRec
  channelMembers : List ChannelMemberRec
  messages : List MessageRec
  reactions : List ReactionRec
deriving DecidableEq, Repr

/-- `ChannelMember.findOne({where: {userId, channelId}})` — the membership
read every membership-checked handler performs against current storage. -/
def findChannelMember (db : Db) (uid cid : Nat) : Option ChannelMemberRec :=
  db.channelMembers.find? (fun cm => cm.userId == uid && cm.channelId == cid)

/-- Sequelize `len: [1, 4000]` validation on `Message.content`: only the
UTF-16 length is constrained, there is no non-blank (`notEmpty`) check. -/
def contentLenOk (content : String) : Bool :=
  1 ≤ content.length && content.length ≤ 4000

/-- `sendMessage` (messages route) and the `send-message` socket handler:
membership check against current storage, `Channel.findByPk`,
`Message.create` (running the model's length validation), then update of
the channel's `lastMessageId` pointer.  `newId`/`now` are the
server-assigned message id and timestamp. -/
def sendMessage (db : Db) (uid cid : Nat) (content : String) (newId now : Nat) :
    Except ApiError Unit × Db :=
  match findChannelMember db uid cid with
  | none => (.error .accessDenied, db)
  | some _ =>
    match db.channels.find? (fun ch => ch.id == cid) with
    | none => (.error .internal, db)
    | some ch =>
      if contentLenOk content then
        let msg : MessageRec :=
          { id := newId, content := content, senderId := uid, channelId := cid,
            teamId := ch.teamId, createdAt := now, editedAt := none }
        let db1 := { db with messages := db.messages ++ [msg] }
        let db2 := { db1 with channels := db1.channels.map (fun c =>
          if c.id == cid then { c with lastMessageId := some newId } else c) }
        (.ok (), db2)
      else
        (.error .validation, db)

/-- `editMessage` (messages route) and the `edit-message` socket handler:
`Message.findOne({where: {id, senderId}})` — the only check is sender
ownership; a miss (absent or not owned) answers `NotFound`.  The update
sets `content` and `editedAt` and re-runs the model's length validation. -/
def editMessage (db : Db) (uid mid : Nat) (content : String) (now : Nat) :
    Except ApiError Unit × Db :=
  match db.messages.find? (fun m => m.id == mid && m.senderId == uid) with
  | none => (.error .notFound, db)
  | some _ =>
    if contentLenOk content then
      (.ok (), { db with messages := db.messages.map (fun m =>
        if m.id == mid then { m with content := content, editedAt := some now } else m) })
    else
      (.error .validation, db)

/-- `deleteMessage` (messages route) and the `delete-message` socket
handler: same ownership-only lookup, then `Message.destroy({where: {id}})`. -/
def deleteMessage (db : Db) (uid mid : Nat) : Except ApiError Unit × Db :=
  match db.messages.find? (fun m => m.id == mid && m.senderId == uid) with
  | none => (.error .notFound, db)
  | some _ =>
    (.ok (), { db with messages := db.messages.filter (fun m => !(m.id == mid)) })

/-- Predicate of the unique (user, message, emoji) reaction triple. -/
def reactionMatches (uid mid : Nat) (emoji : String) (r : ReactionRec) : Bool :=
  r.userId == uid && r.messageId == mid && r.emoji == emoji

/-- `addReaction` (messages route): message lookup (`NotFound` if absent),
membership check on the message's channel against current storage
(`AccessDenied` if absent), then toggle of the reaction triple: destroy it
if present, create it otherwise. -/
def addReaction (db : Db) (uid mid : Nat) (emoji : String) :
    Except ApiError Unit × Db :=
  match db.messages.find? (fun m => m.id == mid) with
  | none => (.error .notFound, db)
  | some msg =>
    match findChannelMember db uid msg.channelId with
    | none => (.error .accessDenied, db)
    | some _ =>
      if db.reactions.any (reactionMatches uid mid emoji) then
        (.ok (), { db with reactions :=
          db.reactions.filter (fun r => !(reactionMatches uid mid emoji r)) })
      else
        (.ok (), { db with reactions :=
          db.reactions ++ [{ userId := uid, messageId := mid, emoji := emoji }] })

/-- The loop in `leaveTeam` destroying the leaver's `ChannelMember` row for
every channel of the team, one `destroy` per channel. -/
def removeFromChannels (uid : Nat) (chans : List ChannelRec)
    (cms : List ChannelMemberRec) : List ChannelMemberRec :=
  chans.foldl
    (fun acc ch => acc.filter (fun cm => !(cm.userId == uid && cm.channelId == ch.id)))
    cms

/-- `leaveTeam` (teams route): team lookup, owner guard
(`Owner cannot leave team`), then removal of the team membership row and of
the leaver's membership in every channel of the team. -/
def leaveTeam (db : Db) (uid tid : Nat) : Except ApiError Unit × Db :=
  match db.teams.find? (fun t => t.id == tid) with
  | none => (.error .notFound, db)
  | some team =>
    if team.ownerId == uid then
      (.error .ownerCannotLeave, db)
    else
      let db1 := { db with teamMembers :=
        db.teamMembers.filter (fun tm => !(tm.userId == uid && tm.teamId == tid)) }
      let teamChannels := db1.channels.filter (fun ch => ch.teamId == tid)
      (.ok (), { db1 with channelMembers :=
        removeFromChannels uid teamChannels db1.channelMembers })

/-- `createChannel` (channels route): team lookup, owner-or-admin guard,
channel creation, creator membership row, and — for non-private channels —
bulk insert of one row per team member with the creator filtered out to
avoid a duplicate row. -/
def createChannel (db : Db) (uid tid : Nat) (isPrivate : Bool) (newChId : Nat) :
    Except ApiError Unit × Db :=
  match db.teams.find? (fun t => t.id == tid) with
  | none => (.error .notFound, db)
  | some team =>
    if team.ownerId == uid ||
        db.teamMembers.any
          (fun tm => tm.userId == uid && tm.teamId == tid && tm.role == "admin") then
      let ch : ChannelRec :=
        { id := newChId, teamId := tid, createdById := uid,
          isPrivate := isPrivate, lastMessageId := none }
      let creatorRow : ChannelMemberRec := { userId := uid, channelId := newChId }
      let bulkRows : List ChannelMemberRec :=
        if isPrivate then []
        else
          ((db.teamMembers.filter (fun tm => tm.teamId == tid)).map
            (fun tm => ({ userId := tm.userId, channelId := newChId } : ChannelMemberRec))).filter
            (fun cm => !(cm.userId == uid))
      (.ok (), { db with channels := db.channels ++ [ch],
                         channelMembers := db.channelMembers ++ creatorRow :: bulkRows })
    else
      (.error .accessDenied, db)

/-- `joinTeam` (teams route): invite-code lookup, duplicate-membership
guard, insertion of the `role = member` row, then one `ChannelMember`
insert per non-private channel of the team. -/
def joinTeam (db : Db) (uid code : Nat) : Except ApiError Unit × Db :=
  match db.teams.find? (fun t => t.inviteCode == code) with
  | none => (.error .notFound, db)
  | some team =>
    if db.teamMembers.any (fun tm => tm.userId == uid && tm.teamId == team.id) then
      (.error .conflict, db)
    else
      let db1 := { db with teamMembers :=
        db.teamMembers ++ [({ userId := uid, teamId := team.id, role := "member" } : TeamMemberRec)] }
      let publicChannels :=
        db1.channels.filter (fun ch => ch.teamId == team.id && !ch.isPrivate)
      (.ok (), { db1 with channelMembers := db1.channelMembers ++
        publicChannels.map (fun ch => ({ userId := uid, channelId := ch.id } : ChannelMemberRec)) })

/-- `joinChannel` (channels route): channel lookup, team-membership guard
(the only access requirement — `isPrivate` is never consulted),
duplicate-membership guard, then membership insertion. -/
def joinChannel (db : Db) (uid cid : Nat) : Except ApiError Unit × Db :=
  match db.channels.find? (fun ch => ch.id == cid) with
  | none => (.error .notFound, db)
  | some ch =>
    if db.teamMembers.any (fun tm => tm.userId == uid && tm.teamId == ch.teamId) then
      if db.channelMembers.any (fun cm => cm.userId == uid && cm.channelId == cid) then
        (.error .conflict, db)
      else
        (.ok (), { db with channelMembers :=
          db.channelMembers ++ [{ userId := uid, channelId := cid }] })
    else
      (.error .accessDenied, db)

/-- `leaveChannel` (channels route): channel lookup, then destruction of
the `ChannelMember` row only — team membership is never touched. -/
def leaveChannel (db : Db) (uid cid : Nat) : Except ApiError Unit × Db :=
  match db.channels.find? (fun ch => ch.id == cid) with
  | none => (.error .notFound, db)
  | some _ =>
    (.ok (), { db with channelMembers :=
      db.channelMembers.filter (fun cm => !(cm.userId == uid && cm.channelId == cid)) })

/-!
## Connection / presence layer

`io.on('connection')` runs `User.update({isOnline: true})` for the
socket's user; the `disconnect` handler runs
`User.update({isOnline: false, lastSeen: new Date()})` for the socket's
user, unconditionally — the server keeps no per-identity count of open
sockets.  Open sockets are modelled as a list of (connection id, user id)
pairs.
-/

/-- `User.update({isOnline: true}, {where: {id}})`. -/
def setUserOnline (users : List UserRec) (uid : Nat) : List UserRec :=
  users.map (fun u => if u.id == uid then { u with isOnline := true } else u)

/-- `User.update({isOnline: false, lastSeen: new Date()}, {where: {id}})`. -/
def setUserOffline (users : List UserRec) (uid now : Nat) : List UserRec :=
  users.map (fun u =>
    if u.id == uid then { u with isOnline := false, lastSeen := some now } else u)

/-- Connection-lifecycle state: the `users` table plus the set of
currently open authenticated sockets. -/
structure ServerState where
  users : List UserRec
  connections : List (Nat × Nat)
deriving DecidableEq, Repr

/-- The `connection` event for an authenticated socket: record the socket
and mark its user online. -/
def onConnection (st : ServerState) (connId uid : Nat) : ServerState :=
  { users := setUserOnline st.users uid,
    connections := st.connections ++ [(connId, uid)] }

/-- The `disconnect` handler: drop the socket and mark its user offline
with `lastSeen` stamped — with no check for other still-open sockets of
the same user. -/
def onDisconnect (st : ServerState) (connId now : Nat) : ServerState :=
  match st.connections.find? (fun c => c.1 == connId) with
  | none => st
  | some c =>
    { users := setUserOffline st.users c.2 now,
      connections := st.connections.filter (fun d => !(d.1 == connId)) }

/-!
## Socket room layer

The `join-channel` handler reads the `ChannelMember` row for the socket's
user and the requested channel: on a hit it calls `socket.join`, on a miss
it does nothing — it emits no event at all.  Room subscriptions are
modelled as (connection id, channel id) pairs and `emittedErrors` records
every `socket.emit('error', ...)` the handler performs (none, in this
handler).
-/

structure SocketState where
  db : Db
  rooms : List (Nat × Nat)
  emittedErrors : List (Nat × String)
deriving DecidableEq, Repr

/-- The `join-channel` socket handler. -/
def joinChannelRoom (st : SocketState) (connId uid cid : Nat) : SocketState :=
  match findChannelMember st.db uid cid with
  | some _ => { st with rooms := st.rooms ++ [(connId, cid)] }
  | none => st

/-!
## Interleaved execution of concurrent `send-message` handlers

The `send-message` socket handler is an async function whose `await`
points (membership read, channel read, message insert, pointer update,
populated re-read followed by the synchronous broadcast) partition it into
atomic segments; Node interleaves the segments of concurrently running
handlers at those points.  A handler instance is a program counter over
those segments, and a schedule is the list of choices of which of two
concurrent handlers runs its next segment.  `log` records the order of
`io.to(channel).emit('new-message', ...)` broadcasts; the order of rows in
`messages` is the commit (persistence) order.
-/

structure Handler where
  uid : Nat
  cid : Nat
  content : String
  msgId : Nat
  now : Nat
  teamIdRead : Option Nat
  pc : Nat
  aborted : Bool
deriving DecidableEq, Repr

structure EngineState where
  db : Db
  log : List Nat
deriving DecidableEq, Repr

/-- Run one atomic segment of a `send-message` handler instance. -/
def handlerStep (es : EngineState) (h : Handler) : EngineState × Handler :=
  if h.aborted then (es, { h with pc := h.pc + 1 })
  else
    match h.pc with
    | 0 =>
      match findChannelMember es.db h.uid h.cid with
      | none => (es, { h with pc := 1, aborted := true })
      | some _ => (es, { h with pc := 1 })
    | 1 =>
      match es.db.channels.find? (fun ch => ch.id == h.cid) with
      | none => (es, { h with pc := 2, aborted := true })
      | some ch => (es, { h with pc := 2, teamIdRead := some ch.teamId })
    | 2 =>
      match h.teamIdRead with
      | none => (es, { h with pc := 3, aborted := true })
      | some tid =>
        if contentLenOk h.content then
          ({ es with db := { es.db with messages := es.db.messages ++
              [{ id := h.msgId, content := h.content, senderId := h.uid,
                 channelId := h.cid, teamId := tid, createdAt := h.now,
                 editedAt := none }] } },
           { h with pc := 3 })
        else
          (es, { h with pc := 3, aborted := true })
    | 3 =>
      ({ es with db := { es.db with channels := es.db.channels.map (fun c =>
          if c.id == h.cid then { c with lastMessageId := some h.msgId } else c) } },
       { h with pc := 4 })
    | 4 =>
      ({ es with log := es.log ++ [h.msgId] }, { h with pc := 5 })
    | _ => (es, h)

/-- Interleave two handler instances under a schedule: `true` runs the
next segment of the first handler, `false` of the second. -/
def runSchedule : List Bool → EngineState → Handler → Handler →
    EngineState × Handler × Handler
  | [], es, a, b => (es, a, b)
  | pick :: rest, es, a, b =>
    if pick then
      let p := handlerStep es a
      runSchedule rest p.1 p.2 b
    else
      let p := handlerStep es b
      runSchedule rest p.1 a p.2

/-!
## Concrete fixtures
-/

/-- A team (id 1, owner 1) with one public channel (id 7) whose members
are users 1 and 2. -/
def twoMemberDb : Db :=
  { users := [], teams := [⟨1, 1, 0⟩],
    teamMembers := [⟨1, 1, "admin"⟩, ⟨2, 1, "member"⟩],
    channels := [⟨7, 1, 1, false, none⟩],
    channelMembers := [⟨1, 7⟩, ⟨2, 7⟩],
    messages := [], reactions := [] }

/-- Channel 7 where user 2 authored message 50 but was afterwards removed
from the channel's membership (no `ChannelMember` row for user 2). -/
def removedAuthorDb : Db :=
  { users := [], teams := [⟨1, 1, 0⟩],
    teamMembers := [⟨1, 1, "admin"⟩],
    channels := [⟨7, 1, 1, false, none⟩],
    channelMembers := [⟨1, 7⟩],
    messages := [⟨50, "hi", 2, 7, 1, 3, none⟩], reactions := [] }

/-- The concurrent-post race: handler A (user 1, message 101) runs its
membership check, channel read and message insert, is then suspended while
handler B (user 2, message 102) runs to completion including its
broadcast, and only then finishes. -/
def raceOutcome : EngineState × Handler × Handler :=
  runSchedule [true, true, true, false, false, false, false, false, true, true]
    ⟨twoMemberDb, []⟩
    ⟨1, 7, "hi", 101, 5, none, 0, false⟩
    ⟨2, 7, "yo", 102, 6, none, 0, false⟩

/-!
## Claims
-/

/-- C1: the spec requires the presence tracker to reference-count open
connections per identity, so that disconnecting one of two simultaneously
open connections leaves the identity online.  The code's `disconnect`
handler instead marks the user offline unconditionally: with connections
10 and 11 both open for user 1, the disconnect of connection 10 leaves
connection 11 open yet flips user 1 to offline and stamps `lastSeen`. -/
theorem C1_disconnect_flips_still_connected_identity :
    onDisconnect (onConnection (onConnection ⟨[⟨1, false, none⟩], []⟩ 10 1) 11 1) 10 99 =
      ⟨[⟨1, false, some 99⟩], [(11, 1)]⟩ := by
  decide

/-- C2: the spec requires broadcast order to equal commit order within a
channel.  The `send-message` handler holds no per-channel exclusion across
its await points, so under the `raceOutcome` interleaving message 101 is
persisted before message 102 (commit order [101, 102]) while the broadcast
log every subscriber observes is [102, 101]. -/
theorem C2_broadcast_order_diverges_from_commit_order :
    raceOutcome.1.db.messages.map (fun m => m.id) = [101, 102] ∧
      raceOutcome.1.log = [102, 101] := by
  decide

/-- C3 counterexample: user 2 authored message 50 in channel 7 and was
then removed from the channel's membership, yet `editMessage` — a mutating
operation targeting the channel — is not rejected with `AccessDenied`: it
succeeds and mutates the message, because edit checks only sender
ownership, never current channel membership. -/
theorem C3_counterexample_edit_after_removal_succeeds :
    findChannelMember removedAuthorDb 2 7 = none ∧
      editMessage removedAuthorDb 2 50 "bye" 9 =
        (.ok (), { removedAuthorDb with messages := [⟨50, "bye", 2, 7, 1, 3, some 9⟩] }) := by
  decide

/-- C8 counterexample: blank (whitespace-only) content is not rejected —
`Message.content` carries only a `len [1, 4000]` validation and no
non-blank check, so posting " " as user 1 into channel 7 succeeds and
persists a message row. -/
theorem C8_counterexample_blank_content_accepted :
    (sendMessage twoMemberDb 1 7 " " 101 5).1 = .ok () ∧
      (sendMessage twoMemberDb 1 7 " " 101 5).2.messages =
        [⟨101, " ", 1, 7, 1, 5, none⟩] := by
  decide

/-- C9 counterexample: a `join-channel` request from user 2 (not a member
of channel 7) leaves the socket state fully unchanged — the room is not
joined, but no `AccessDenied` (or any) error event is emitted to the
requesting connection either: the request is silently dropped. -/
theorem C9_counterexample_unauthorized_join_emits_no_signal :
    joinChannelRoom ⟨removedAuthorDb, [], []⟩ 5 2 7 = ⟨removedAuthorDb, [], []⟩ := by
  decide

/-- The reaction triple inserted by a toggle. -/
theorem reactionMatches_self (uid mid : Nat) (emoji : String) :
    reactionMatches uid mid emoji ⟨uid, mid, emoji⟩ = true := by
  simp [reactionMatches]

/-- C4: a message authored by `a` cannot be edited or deleted by `b ≠ a`:
both operations answer `NotFound` (the same answer as for a nonexistent
message) and return the database unchanged. -/
theorem C4_edit_delete_by_non_author_is_notFound
    (db : Db) (a b mid now : Nat) (content : String)
    (hauthor : ∀ m ∈ db.messages, m.id = mid → m.senderId = a)
    (hne : b ≠ a) :
    editMessage db b mid content now = (.error .notFound, db) ∧
      deleteMessage db b mid = (.error .notFound, db) := by
  have hfind : db.messages.find? (fun m => m.id == mid && m.senderId == b) = none := by
    rw [List.find?_eq_none]
    intro m hm hcontra
    simp only [Bool.and_eq_true, beq_iff_eq] at hcontra
    exact hne (hcontra.2.symm.trans (hauthor m hm hcontra.1))
  constructor
  · unfold editMessage
    rw [hfind]
  · unfold deleteMessage
    rw [hfind]

/-- C4 witness: in `removedAuthorDb` message 50 is authored by user 2, so
user 1's edit and delete both answer `NotFound` and change nothing. -/
theorem C4_witness :
    editMessage removedAuthorDb 1 50 "x" 9 = (.error .notFound, removedAuthorDb) ∧
      deleteMessage removedAuthorDb 1 50 = (.error .notFound, removedAuthorDb) :=
  C4_edit_delete_by_non_author_is_notFound removedAuthorDb 2 1 50 9 "x"
    (by decide) (by decide)

/-- C10: `joinChannel` enforces team membership as its only access
requirement — the channel's `isPrivate` flag is never consulted, so a team
member who is not yet a channel member always joins successfully, private
channel or not (`ch.isPrivate` is unconstrained here and the witness uses
a private channel). -/
theorem C10_team_member_joins_any_channel
    (db : Db) (uid cid : Nat) (ch : ChannelRec)
    (hch : db.channels.find? (fun c => c.id == cid) = some ch)
    (hteam : db.teamMembers.any (fun tm => tm.userId == uid && tm.teamId == ch.teamId) = true)
    (hnot : db.channelMembers.any (fun cm => cm.userId == uid && cm.channelId == cid) = false) :
    joinChannel db uid cid =
      (.ok (), { db with channelMembers := db.channelMembers ++ [⟨uid, cid⟩] }) := by
  unfold joinChannel
  rw [hch]
  dsimp only
  rw [hteam, hnot]
  rfl

/-- A team whose private channel 9 has only its creator (user 1) as
member, while user 3 is a team member. -/
def privateChannelDb : Db :=
  { users := [], teams := [⟨1, 1, 0⟩],
    teamMembers := [⟨1, 1, "admin"⟩, ⟨3, 1, "member"⟩],
    channels := [⟨9, 1, 1, true, none⟩],
    channelMembers := [⟨1, 9⟩],
    messages := [], reactions := [] }

/-- C10 witness: team member 3 joins the private channel 9 with no
invitation or approval gate. -/
theorem C10_witness :
    joinChannel privateChannelDb 3 9 =
      (.ok (), { privateChannelDb with
        channelMembers := privateChannelDb.channelMembers ++ [⟨3, 9⟩] }) :=
  C10_team_member_joins_any_channel privateChannelDb 3 9 ⟨9, 1, 1, true, none⟩
    (by decide) (by decide) (by decide)

/-- C9 amended: the `join-channel` handler does consult the membership
read first, and an unauthorized request mutates nothing — neither the room
subscriptions nor the emitted-event log: the state is returned exactly as
it was, so no `AccessDenied` signal (nor any other event) reaches the
requesting connection. -/
theorem C9_unauthorized_join_is_silently_ignored
    (st : SocketState) (connId uid cid : Nat)
    (hmem : findChannelMember st.db uid cid = none) :
    joinChannelRoom st connId uid cid = st := by
  unfold joinChannelRoom
  rw [hmem]

/-- C9 witness: user 2 is not a member of channel 7, and the join request
on connection 6 changes nothing. -/
theorem C9_witness :
    joinChannelRoom ⟨removedAuthorDb, [], []⟩ 6 2 7 = ⟨removedAuthorDb, [], []⟩ :=
  C9_unauthorized_join_is_silently_ignored ⟨removedAuthorDb, [], []⟩ 6 2 7 (by decide)

/-- C3 amended: membership is re-read from storage on post and react, so a
connection whose identity was removed from the channel's membership has
`send-message` and reaction toggles rejected with `AccessDenied`; but edit
and delete check only sender ownership — never membership — so the removed
identity's edit of its own message still succeeds. -/
theorem C3_post_react_denied_edit_ownership_only
    (db : Db) (uid cid mid mid2 newId now : Nat) (content emoji : String)
    (msg own : MessageRec)
    (hmem : findChannelMember db uid cid = none)
    (hmsg : db.messages.find? (fun m => m.id == mid) = some msg)
    (hchan : msg.channelId = cid)
    (hown : db.messages.find? (fun m => m.id == mid && m.senderId == uid) = some own)
    (hnotown : db.messages.find? (fun m => m.id == mid2 && m.senderId == uid) = none)
    (hlen : contentLenOk content = true) :
    sendMessage db uid cid content newId now = (.error .accessDenied, db) ∧
      addReaction db uid mid emoji = (.error .accessDenied, db) ∧
      (editMessage db uid mid content now).1 = .ok () ∧
      (deleteMessage db uid mid).1 = .ok () ∧
      editMessage db uid mid2 content now = (.error .notFound, db) ∧
      deleteMessage db uid mid2 = (.error .notFound, db) := by
  refine ⟨?_, ?_, ?_, ?_, ?_, ?_⟩
  · unfold sendMessage
    rw [hmem]
  · unfold addReaction
    rw [hmsg]
    dsimp only
    rw [hchan, hmem]
  · unfold editMessage
    rw [hown]
    dsimp only
    rw [hlen]
    rfl
  · unfold deleteMessage
    rw [hown]
  · unfold editMessage
    rw [hnotown]
  · unfold deleteMessage
    rw [hnotown]

/-- `removedAuthorDb` with an extra message (id 60) authored by user 1,
so that user 2 also has a message there that is not their own. -/
def removedAuthorDb2 : Db :=
  { removedAuthorDb with messages :=
      removedAuthorDb.messages ++ [⟨60, "yo", 1, 7, 1, 4, none⟩] }

/-- C3 witness: in `removedAuthorDb2` user 2 is no longer a member of
channel 7 yet authored message 50; posting and reacting are denied, the
removed author's edit and delete of message 50 still succeed, and their
edit and delete of message 60 (authored by user 1) fail `NotFound`. -/
theorem C3_witness :
    sendMessage removedAuthorDb2 2 7 "bye" 101 9 = (.error .accessDenied, removedAuthorDb2) ∧
      addReaction removedAuthorDb2 2 50 "x" = (.error .accessDenied, removedAuthorDb2) ∧
      (editMessage removedAuthorDb2 2 50 "bye" 9).1 = .ok () ∧
      (deleteMessage removedAuthorDb2 2 50).1 = .ok () ∧
      editMessage removedAuthorDb2 2 60 "bye" 9 = (.error .notFound, removedAuthorDb2) ∧
      deleteMessage removedAuthorDb2 2 60 = (.error .notFound, removedAuthorDb2) :=
  C3_post_react_denied_edit_ownership_only removedAuthorDb2 2 7 50 60 101 9 "bye" "x"
    ⟨50, "hi", 2, 7, 1, 3, none⟩ ⟨50, "hi", 2, 7, 1, 3, none⟩
    (by decide) (by decide) (by decide) (by decide) (by decide) (by decide)

/-- C8 amended: with the sender a channel member, content whose length is
0 or exceeds 4000 is rejected by the model's `len` validation with no row
created and the pointer untouched, and any content of length 1–4000 —
including whitespace-only content, which the code does not reject — is
persisted with the server-assigned id and timestamp, the channel's
last-message pointer moving to the new row. -/
theorem C8_length_validation_and_persist
    (db : Db) (uid cid newId now : Nat) (bad good : String)
    (cm : ChannelMemberRec) (ch : ChannelRec)
    (hmem : findChannelMember db uid cid = some cm)
    (hch : db.channels.find? (fun c => c.id == cid) = some ch)
    (hbad : bad.length = 0 ∨ bad.length > 4000)
    (hgood : 1 ≤ good.length ∧ good.length ≤ 4000) :
    sendMessage db uid cid bad newId now = (.error .validation, db) ∧
      sendMessage db uid cid good newId now =
        (.ok (), { db with
          messages := db.messages ++ [⟨newId, good, uid, cid, ch.teamId, now, none⟩],
          channels := db.channels.map (fun c =>
            if c.id == cid then { c with lastMessageId := some newId } else c) }) := by
  have hbadLen : contentLenOk bad = false := by
    unfold contentLenOk
    rcases hbad with h | h
    · simp [h]
    · have hnle : ¬ bad.length ≤ 4000 := Nat.not_le.mpr h
      simp [hnle]
  have hgoodLen : contentLenOk good = true := by
    unfold contentLenOk
    simp [hgood.1, hgood.2]
  constructor
  · unfold sendMessage
    rw [hmem]
    dsimp only
    rw [hch]
    dsimp only
    rw [hbadLen]
    rfl
  · unfold sendMessage
    rw [hmem]
    dsimp only
    rw [hch]
    dsimp only
    rw [hgoodLen]
    rfl

/-- C8 witness: in `twoMemberDb`, member 1's empty post into channel 7 is
rejected while a one-character post is persisted and moves the pointer. -/
theorem C8_witness :
    sendMessage twoMemberDb 1 7 "" 101 5 = (.error .validation, twoMemberDb) ∧
      sendMessage twoMemberDb 1 7 "a" 101 5 =
        (.ok (), { twoMemberDb with
          messages := twoMemberDb.messages ++ [⟨101, "a", 1, 7, 1, 5, none⟩],
          channels := twoMemberDb.channels.map (fun c =>
            if c.id == 7 then { c with lastMessageId := some 101 } else c) }) :=
  C8_length_validation_and_persist twoMemberDb 1 7 101 5 "" "a" ⟨1, 7⟩ ⟨7, 1, 1, false, none⟩
    (by decide) (by decide) (by decide) (by decide)

/-- A toggle that inserts leaves every other table unchanged; membership
and message lookups therefore see the same rows afterwards. -/
theorem findChannelMember_set_reactions (db : Db) (rs : List ReactionRec) (uid cid : Nat) :
    findChannelMember { db with reactions := rs } uid cid = findChannelMember db uid cid := rfl

/-- One toggle from a reaction-absent state inserts the triple. -/
theorem addReaction_insert (db : Db) (uid mid : Nat) (emoji : String)
    (msg : MessageRec) (cm : ChannelMemberRec)
    (hmsg : db.messages.find? (fun m => m.id == mid) = some msg)
    (hmem : findChannelMember db uid msg.channelId = some cm)
    (habsent : ∀ r ∈ db.reactions, reactionMatches uid mid emoji r = false) :
    (addReaction db uid mid emoji).2 =
      { db with reactions := db.reactions ++ [⟨uid, mid, emoji⟩] } := by
  have hany : db.reactions.any (reactionMatches uid mid emoji) = false := by
    rw [List.any_eq_false]
    intro r hr
    simp [habsent r hr]
  unfold addReaction
  rw [hmsg]
  dsimp only
  rw [hmem]
  dsimp only
  rw [hany]
  rfl

/-- One toggle from the reaction-present state removes the triple again. -/
theorem addReaction_remove (db : Db) (uid mid : Nat) (emoji : String)
    (msg : MessageRec) (cm : ChannelMemberRec)
    (hmsg : db.messages.find? (fun m => m.id == mid) = some msg)
    (hmem : findChannelMember db uid msg.channelId = some cm)
    (habsent : ∀ r ∈ db.reactions, reactionMatches uid mid emoji r = false) :
    (addReaction { db with reactions := db.reactions ++ [⟨uid, mid, emoji⟩] } uid mid emoji).2 =
      db := by
  obtain ⟨us, ts, tms, chs, cms2, msgs, rs⟩ := db
  dsimp only at hmsg habsent ⊢
  have hany : (rs ++ [(⟨uid, mid, emoji⟩ : ReactionRec)]).any
      (reactionMatches uid mid emoji) = true := by
    rw [List.any_append]
    simp [reactionMatches_self]
  have hfilter : (rs ++ [(⟨uid, mid, emoji⟩ : ReactionRec)]).filter
      (fun r => !(reactionMatches uid mid emoji r)) = rs := by
    rw [List.filter_append]
    have h1 : rs.filter (fun r => !(reactionMatches uid mid emoji r)) = rs :=
      List.filter_eq_self.mpr (fun r hr => by simp [habsent r hr])
    have h2 : [(⟨uid, mid, emoji⟩ : ReactionRec)].filter
        (fun r => !(reactionMatches uid mid emoji r)) = [] := by
      simp [reactionMatches_self]
    rw [h1, h2, List.append_nil]
  unfold addReaction findChannelMember
  unfold findChannelMember at hmem
  rw [hmsg]
  dsimp only
  rw [hmem]
  dsimp only
  rw [hany, if_pos rfl]
  dsimp only
  rw [hfilter]

/-- C5: with the message present and the caller a member of its channel,
the reaction toggle is an involution from the reaction-absent state —
applying it twice restores the exact original database — and any odd
number of applications leaves exactly one (user, message, emoji) row,
never a duplicate. -/
theorem C5_toggle_reaction_involution
    (db : Db) (uid mid k : Nat) (emoji : String) (msg : MessageRec) (cm : ChannelMemberRec)
    (hmsg : db.messages.find? (fun m => m.id == mid) = some msg)
    (hmem : findChannelMember db uid msg.channelId = some cm)
    (habsent : ∀ r ∈ db.reactions, reactionMatches uid mid emoji r = false) :
    (fun d => (addReaction d uid mid emoji).2)^[2] db = db ∧
      ((fun d => (addReaction d uid mid emoji).2)^[2 * k + 1] db).reactions.countP
        (reactionMatches uid mid emoji) = 1 := by
  have hstep : (addReaction db uid mid emoji).2 =
      { db with reactions := db.reactions ++ [⟨uid, mid, emoji⟩] } :=
    addReaction_insert db uid mid emoji msg cm hmsg hmem habsent
  have hback :
      (addReaction { db with reactions := db.reactions ++ [⟨uid, mid, emoji⟩] }
        uid mid emoji).2 = db :=
    addReaction_remove db uid mid emoji msg cm hmsg hmem habsent
  have h2 : (fun d => (addReaction d uid mid emoji).2)^[2] db = db := by
    show (addReaction (addReaction db uid mid emoji).2 uid mid emoji).2 = db
    rw [hstep]
    exact hback
  refine ⟨h2, ?_⟩
  have hodd : (fun d => (addReaction d uid mid emoji).2)^[2 * k + 1] db =
      (addReaction db uid mid emoji).2 := by
    induction k with
    | zero => rfl
    | succ n ih =>
      have harith : 2 * (n + 1) + 1 = (2 * n + 1) + 2 := by ring
      rw [harith, Function.iterate_add_apply, h2]
      exact ih
  rw [hodd, hstep]
  dsimp only
  rw [List.countP_append]
  have hz : db.reactions.countP (reactionMatches uid mid emoji) = 0 :=
    List.countP_eq_zero.mpr (fun r hr => by simp [habsent r hr])
  rw [hz]
  simp [List.countP_cons, List.countP_nil, reactionMatches_self]

/-- `twoMemberDb` with one message (id 50, by user 1) in channel 7. -/
def reactDb : Db :=
  { twoMemberDb with messages := [⟨50, "hi", 1, 7, 1, 3, none⟩] }

/-- C5 witness: member 2 toggling "x" on message 50 twice restores
`reactDb` exactly, and three toggles leave exactly one reaction row. -/
theorem C5_witness :
    (fun d => (addReaction d 2 50 "x").2)^[2] reactDb = reactDb ∧
      ((fun d => (addReaction d 2 50 "x").2)^[2 * 1 + 1] reactDb).reactions.countP
        (reactionMatches 2 50 "x") = 1 :=
  C5_toggle_reaction_involution reactDb 2 50 1 "x" ⟨50, "hi", 1, 7, 1, 3, none⟩ ⟨2, 7⟩
    (by decide) (by decide) (by decide)

/-- Surviving the per-channel destroy loop means the row was in the
original table and matches none of the destroyed (user, channel) pairs. -/
theorem mem_removeFromChannels (uid : Nat) (chans : List ChannelRec)
    (cms : List ChannelMemberRec) (cm : ChannelMemberRec)
    (h : cm ∈ removeFromChannels uid chans cms) :
    cm ∈ cms ∧ ∀ ch ∈ chans, (cm.userId == uid && cm.channelId == ch.id) = false := by
  induction chans generalizing cms with
  | nil =>
    refine ⟨h, ?_⟩
    intro ch hch
    cases hch
  | cons ch0 rest ih =>
    have h' : cm ∈ removeFromChannels uid rest
        (cms.filter (fun x => !(x.userId == uid && x.channelId == ch0.id))) := h
    obtain ⟨hmem, hall⟩ := ih _ h'
    have hmf := List.mem_filter.mp hmem
    refine ⟨hmf.1, ?_⟩
    intro ch hch
    rcases List.mem_cons.mp hch with rfl | hch'
    · have hx : (!(cm.userId == uid && cm.channelId == ch.id)) = true := hmf.2
      rw [Bool.not_eq_true'] at hx
      exact hx
    · exact hall ch hch'

/-- C6: for an existing team, `leaveTeam` by the owner always fails
`OwnerCannotLeave` with the database untouched — whatever role rows other
members hold, since `db` is arbitrary here — while `leaveTeam` by any
non-owner succeeds, removes that user's team-membership row, and removes
their membership row for every channel of the team. -/
theorem C6_owner_guard_and_leave_cascade
    (db : Db) (owner uid tid : Nat) (team : TeamRec) (ch : ChannelRec)
    (hteam : db.teams.find? (fun t => t.id == tid) = some team)
    (howner : team.ownerId = owner)
    (huid : team.ownerId ≠ uid)
    (hch : ch ∈ db.channels) (hchteam : ch.teamId = tid) :
    leaveTeam db owner tid = (.error .ownerCannotLeave, db) ∧
      (leaveTeam db uid tid).1 = .ok () ∧
      (leaveTeam db uid tid).2.teamMembers.all
        (fun tm => !(tm.userId == uid && tm.teamId == tid)) = true ∧
      (leaveTeam db uid tid).2.channelMembers.all
        (fun cm => !(cm.userId == uid && cm.channelId == ch.id)) = true := by
  have hOwnerBeq : (team.ownerId == owner) = true := by simp [howner]
  have hNotBeq : (team.ownerId == uid) = false := by simp [huid]
  have hleave : leaveTeam db uid tid =
      (.ok (), { db with
        teamMembers := db.teamMembers.filter (fun tm => !(tm.userId == uid && tm.teamId == tid)),
        channelMembers := removeFromChannels uid
          (db.channels.filter (fun c => c.teamId == tid)) db.channelMembers }) := by
    unfold leaveTeam
    rw [hteam]
    dsimp only
    rw [hNotBeq, if_neg (by simp)]
  refine ⟨?_, ?_, ?_, ?_⟩
  · unfold leaveTeam
    rw [hteam]
    dsimp only
    rw [hOwnerBeq, if_pos rfl]
  · rw [hleave]
  · rw [hleave]
    dsimp only
    rw [List.all_eq_true]
    intro tm htm
    exact (List.mem_filter.mp htm).2
  · rw [hleave]
    dsimp only
    rw [List.all_eq_true]
    intro cm hcm
    have hmm := mem_removeFromChannels uid _ _ cm hcm
    have hchf : ch ∈ db.channels.filter (fun c => c.teamId == tid) :=
      List.mem_filter.mpr ⟨hch, by simp [hchteam]⟩
    have := hmm.2 ch hchf
    simp [this]

/-- C6 witness: in `twoMemberDb`, owner 1 cannot leave team 1, while
member 2 leaves successfully with both membership rows cascaded away. -/
theorem C6_witness :
    leaveTeam twoMemberDb 1 1 = (.error .ownerCannotLeave, twoMemberDb) ∧
      (leaveTeam twoMemberDb 2 1).1 = .ok () ∧
      (leaveTeam twoMemberDb 2 1).2.teamMembers.all
        (fun tm => !(tm.userId == 2 && tm.teamId == 1)) = true ∧
      (leaveTeam twoMemberDb 2 1).2.channelMembers.all
        (fun cm => !(cm.userId == 2 && cm.channelId == (7 : Nat))) = true :=
  C6_owner_guard_and_leave_cascade twoMemberDb 1 2 1 ⟨1, 1, 0⟩ ⟨7, 1, 1, false, none⟩
    (by decide) (by decide) (by decide) (by decide) (by decide)

/-- Running `createChannel` for a non-private channel under an existing
team and a passing owner-or-admin guard. -/
theorem createChannel_public_run (db : Db) (uid tid newChId : Nat) (team : TeamRec)
    (hteam : db.teams.find? (fun t => t.id == tid) = some team)
    (hperm : (team.ownerId == uid || db.teamMembers.any
      (fun tm => tm.userId == uid && tm.teamId == tid && tm.role == "admin")) = true) :
    createChannel db uid tid false newChId =
      (.ok (), { db with
        channels := db.channels ++ [⟨newChId, tid, uid, false, none⟩],
        channelMembers := db.channelMembers ++ (⟨uid, newChId⟩ : ChannelMemberRec) ::
          ((db.teamMembers.filter (fun tm => tm.teamId == tid)).map
            (fun tm => ({ userId := tm.userId, channelId := newChId } : ChannelMemberRec))).filter
            (fun cm => !(cm.userId == uid)) }) := by
  unfold createChannel
  rw [hteam]
  dsimp only
  rw [hperm, if_pos rfl]
  rfl

/-- In the membership table written by a non-private `createChannel`, a
user sits in the new channel exactly when they are the creator or were a
team member at creation time. -/
theorem bulk_membership_iff (cms : List ChannelMemberRec) (tms : List TeamMemberRec)
    (uid tid newChId w : Nat)
    (hfresh : ∀ cm ∈ cms, cm.channelId ≠ newChId) :
    ((cms ++ (⟨uid, newChId⟩ : ChannelMemberRec) ::
        ((tms.filter (fun tm => tm.teamId == tid)).map
          (fun tm => ({ userId := tm.userId, channelId := newChId } : ChannelMemberRec))).filter
          (fun cm => !(cm.userId == uid))).any
      (fun cm => cm.userId == w && cm.channelId == newChId))
    = ((w == uid) || tms.any (fun tm => tm.userId == w && tm.teamId == tid)) := by
  have h1 : cms.any (fun cm => cm.userId == w && cm.channelId == newChId) = false := by
    rw [List.any_eq_false]
    intro cm hcm
    simp [hfresh cm hcm]
  by_cases hw : w = uid
  · subst hw
    have hL : ((cms ++ (⟨w, newChId⟩ : ChannelMemberRec) ::
        ((tms.filter (fun tm => tm.teamId == tid)).map
          (fun tm => ({ userId := tm.userId, channelId := newChId } : ChannelMemberRec))).filter
          (fun cm => !(cm.userId == w))).any
        (fun cm => cm.userId == w && cm.channelId == newChId)) = true := by
      apply List.any_eq_true.mpr
      exact ⟨⟨w, newChId⟩, List.mem_append_right _ (List.mem_cons_self _ _), by simp⟩
    rw [hL]
    simp
  · have huw : uid ≠ w := fun h => hw h.symm
    have hcreator : ((⟨uid, newChId⟩ : ChannelMemberRec).userId == w &&
        (⟨uid, newChId⟩ : ChannelMemberRec).channelId == newChId) = false := by
      simp [huw]
    rw [List.any_append, List.any_cons, h1, hcreator]
    have hwu : (w == uid) = false := by simp [hw]
    rw [hwu]
    simp only [Bool.false_or]
    rw [Bool.eq_iff_iff, List.any_eq_true, List.any_eq_true]
    constructor
    · rintro ⟨cm, hbulk, hp⟩
      obtain ⟨hmap, hne⟩ := List.mem_filter.mp hbulk
      obtain ⟨tm, htm, rfl⟩ := List.mem_map.mp hmap
      obtain ⟨htmm, htid⟩ := List.mem_filter.mp htm
      refine ⟨tm, htmm, ?_⟩
      simp only [Bool.and_eq_true, beq_iff_eq] at hp htid ⊢
      exact ⟨hp.1, htid⟩
    · rintro ⟨tm, htm, hq⟩
      simp only [Bool.and_eq_true, beq_iff_eq] at hq
      refine ⟨⟨tm.userId, newChId⟩, ?_, ?_⟩
      · apply List.mem_filter.mpr
        refine ⟨List.mem_map.mpr ⟨tm, List.mem_filter.mpr ⟨htm, by simp [hq.2]⟩, rfl⟩, ?_⟩
        simp [hq.1, hw]
      · simp [hq.1]

/-- The creator has exactly one row in the new channel's membership: the
bulk insert filters the creator out before writing. -/
theorem bulk_creator_once (cms : List ChannelMemberRec) (tms : List TeamMemberRec)
    (uid tid newChId : Nat)
    (hfresh : ∀ cm ∈ cms, cm.channelId ≠ newChId) :
    ((cms ++ (⟨uid, newChId⟩ : ChannelMemberRec) ::
        ((tms.filter (fun tm => tm.teamId == tid)).map
          (fun tm => ({ userId := tm.userId, channelId := newChId } : ChannelMemberRec))).filter
          (fun cm => !(cm.userId == uid))).countP
      (fun cm => cm.userId == uid && cm.channelId == newChId)) = 1 := by
  rw [List.countP_append, List.countP_cons]
  have h0 : cms.countP (fun cm => cm.userId == uid && cm.channelId == newChId) = 0 :=
    List.countP_eq_zero.mpr (fun cm hcm => by simp [hfresh cm hcm])
  have hb : (((tms.filter (fun tm => tm.teamId == tid)).map
      (fun tm => ({ userId := tm.userId, channelId := newChId } : ChannelMemberRec))).filter
      (fun cm => !(cm.userId == uid))).countP
      (fun cm => cm.userId == uid && cm.channelId == newChId) = 0 := by
    apply List.countP_eq_zero.mpr
    intro cm hcm
    have hne := (List.mem_filter.mp hcm).2
    rw [Bool.not_eq_true'] at hne
    simp [hne]
  rw [h0, hb]
  simp

/-- C7: (a) a non-private channel created in an existing team gets as
members exactly the team's current members plus the creator, with exactly
one row for the creator; (b) a user joining the team afterwards by invite
is added to the team and to every non-private channel of the team; (c)
`leaveChannel` never touches team membership. -/
theorem C7_channel_membership_cascades
    (db : Db) (uid tid newChId w : Nat) (team : TeamRec)
    (db2 : Db) (joiner code : Nat) (team2 : TeamRec) (ch2 : ChannelRec)
    (db3 : Db) (u3 cid3 : Nat)
    (hteam : db.teams.find? (fun t => t.id == tid) = some team)
    (hperm : (team.ownerId == uid || db.teamMembers.any
      (fun tm => tm.userId == uid && tm.teamId == tid && tm.role == "admin")) = true)
    (hfresh : ∀ cm ∈ db.channelMembers, cm.channelId ≠ newChId)
    (hteam2 : db2.teams.find? (fun t => t.inviteCode == code) = some team2)
    (hnew2 : db2.teamMembers.any (fun tm => tm.userId == joiner && tm.teamId == team2.id) = false)
    (hch2 : ch2 ∈ db2.channels) (hpub2 : ch2.teamId = team2.id) (hpriv2 : ch2.isPrivate = false) :
    (createChannel db uid tid false newChId).1 = .ok () ∧
      ((createChannel db uid tid false newChId).2.channelMembers.any
          (fun cm => cm.userId == w && cm.channelId == newChId))
        = ((w == uid) || db.teamMembers.any (fun tm => tm.userId == w && tm.teamId == tid)) ∧
      (createChannel db uid tid false newChId).2.channelMembers.countP
        (fun cm => cm.userId == uid && cm.channelId == newChId) = 1 ∧
      (joinTeam db2 joiner code).1 = .ok () ∧
      (joinTeam db2 joiner code).2.teamMembers.any
        (fun tm => tm.userId == joiner && tm.teamId == team2.id) = true ∧
      (joinTeam db2 joiner code).2.channelMembers.any
        (fun cm => cm.userId == joiner && cm.channelId == ch2.id) = true ∧
      (leaveChannel db3 u3 cid3).2.teamMembers = db3.teamMembers := by
  have hrun := createChannel_public_run db uid tid newChId team hteam hperm
  have hjoin : joinTeam db2 joiner code =
      (.ok (), { db2 with
        teamMembers := db2.teamMembers ++
          [({ userId := joiner, teamId := team2.id, role := "member" } : TeamMemberRec)],
        channelMembers := db2.channelMembers ++
          (db2.channels.filter (fun ch => ch.teamId == team2.id && !ch.isPrivate)).map
            (fun ch => ({ userId := joiner, channelId := ch.id } : ChannelMemberRec)) }) := by
    unfold joinTeam
    rw [hteam2]
    dsimp only
    rw [hnew2, if_neg (by simp)]
  refine ⟨?_, ?_, ?_, ?_, ?_, ?_, ?_⟩
  · rw [hrun]
  · rw [hrun]
    dsimp only
    exact bulk_membership_iff db.channelMembers db.teamMembers uid tid newChId w hfresh
  · rw [hrun]
    dsimp only
    exact bulk_creator_once db.channelMembers db.teamMembers uid tid newChId hfresh
  · rw [hjoin]
  · rw [hjoin]
    dsimp only
    rw [List.any_append]
    simp
  · rw [hjoin]
    dsimp only
    apply List.any_eq_true.mpr
    refine ⟨⟨joiner, ch2.id⟩, List.mem_append_right _ ?_, by simp⟩
    exact List.mem_map.mpr ⟨ch2, List.mem_filter.mpr ⟨hch2, by simp [hpub2, hpriv2]⟩, rfl⟩
  · unfold leaveChannel
    cases hfind : db3.channels.find? (fun ch => ch.id == cid3) with
    | none => rfl
    | some ch => rfl

/-- C7 witness: in `twoMemberDb` (team 1 = users 1 and 2), owner 1
creates public channel 8 whose membership is exactly users 1 and 2 with
one creator row; user 3 joins by invite code 0 and lands in public
channel 7; member 2 leaving channel 7 leaves team membership intact. -/
theorem C7_witness :
    (createChannel twoMemberDb 1 1 false 8).1 = .ok () ∧
      ((createChannel twoMemberDb 1 1 false 8).2.channelMembers.any
          (fun cm => cm.userId == 2 && cm.channelId == 8))
        = (((2 : Nat) == 1) || twoMemberDb.teamMembers.any
            (fun tm => tm.userId == 2 && tm.teamId == 1)) ∧
      (createChannel twoMemberDb 1 1 false 8).2.channelMembers.countP
        (fun cm => cm.userId == 1 && cm.channelId == 8) = 1 ∧
      (joinTeam twoMemberDb 3 0).1 = .ok () ∧
      (joinTeam twoMemberDb 3 0).2.teamMembers.any
        (fun tm => tm.userId == 3 && tm.teamId == 1) = true ∧
      (joinTeam twoMemberDb 3 0).2.channelMembers.any
        (fun cm => cm.userId == 3 && cm.channelId == 7) = true ∧
      (leaveChannel twoMemberDb 2 7).2.teamMembers = twoMemberDb.teamMembers :=
  C7_channel_membership_cascades twoMemberDb 1 1 8 2 ⟨1, 1, 0⟩
    twoMemberDb 3 0 ⟨1, 1, 0⟩ ⟨7, 1, 1, false, none⟩
    twoMemberDb 2 7
    (by decide) (by decide) (by decide) (by decide) (by decide) (by decide)
    (by decide) (by decide)
